import Mathlib

/-!
Verification of the websocket session broker in
`services/websocket/src/client.rs`, as a shallow embedding: pure Lean
functions mirror the Rust control flow, outcomes of external I/O calls
(`framer.write`, `framer.close`) are supplied as explicit oracle
arguments, and the dispatcher main loop is a function from the incoming
message list to the list of externally visible events it produces.
-/

namespace Ws

/-- Size of the framer read/write buffers, `WEBSOCKET_BUFFER_LEN` in
`client.rs`. -/
def WEBSOCKET_BUFFER_LEN : Nat := 4096

/-- Maximum payload bytes per websocket frame, `WEBSOCKET_PAYLOAD_LEN` in
`client.rs`. -/
def WEBSOCKET_PAYLOAD_LEN : Nat := 4080

/-- Seconds between regular keep-alive requests,
`KEEPALIVE_TIMEOUT_SECONDS` in `client.rs` (a `Duration` of 55 seconds). -/
def KEEPALIVE_TIMEOUT_SECONDS : Nat := 55

/-- Shallow embedding of the chunked-write loop `fn write` of `client.rs`.
`buffer` is the caller's payload (bytes as naturals), `start` the cursor
and `k` the index of the next `framer.write` call; `io j` is the outcome
of the `j`-th `framer.write` call (`none` meaning `Ok`).  The result is
the final value of the mutable `ret` together with the list of
`(slice, end_of_message)` arguments of every `framer.write` call, in
order.  The loop body: when fewer than `WEBSOCKET_PAYLOAD_LEN` bytes
remain, the slice is `buffer[start..]` and `end_of_message` is set (last
iteration); otherwise the slice is
`buffer[start..start + WEBSOCKET_PAYLOAD_LEN]`; each iteration overwrites
`ret` with the outcome of its own `framer.write` call and advances
`start` by `WEBSOCKET_PAYLOAD_LEN`. -/
def write (io : Nat → Option Nat) (buffer : List Nat) (start k : Nat) :
    Option Nat × List (List Nat × Bool) :=
  if buffer.length < start + WEBSOCKET_PAYLOAD_LEN then
    (io k, [(buffer.drop start, true)])
  else
    let rest := write io buffer (start + WEBSOCKET_PAYLOAD_LEN) (k + 1)
    (rest.1, ((buffer.drop start).take WEBSOCKET_PAYLOAD_LEN, false) :: rest.2)
termination_by buffer.length + WEBSOCKET_PAYLOAD_LEN - start
decreasing_by
  simp only [WEBSOCKET_PAYLOAD_LEN] at *
  omega

/-- Unfolding equation for `write`. -/
theorem write_eq (io : Nat → Option Nat) (buffer : List Nat) (start k : Nat) :
    write io buffer start k =
      if buffer.length < start + WEBSOCKET_PAYLOAD_LEN then
        (io k, [(buffer.drop start, true)])
      else
        ((write io buffer (start + WEBSOCKET_PAYLOAD_LEN) (k + 1)).1,
          ((buffer.drop start).take WEBSOCKET_PAYLOAD_LEN, false) ::
            (write io buffer (start + WEBSOCKET_PAYLOAD_LEN) (k + 1)).2) := by
  rw [write]

/-- The value returned by the chunked-write loop is the outcome of the
last `framer.write` call: every earlier outcome is overwritten. -/
theorem write_fst (io : Nat → Option Nat) (buffer : List Nat) (start k : Nat) :
    (write io buffer start k).1 =
      io (k + (buffer.length - start) / WEBSOCKET_PAYLOAD_LEN) := by
  rw [write_eq]
  by_cases h : buffer.length < start + WEBSOCKET_PAYLOAD_LEN
  · rw [if_pos h]
    have h0 : (buffer.length - start) / WEBSOCKET_PAYLOAD_LEN = 0 := by
      apply Nat.div_eq_of_lt
      simp only [WEBSOCKET_PAYLOAD_LEN] at *
      omega
    rw [h0]
    rfl
  · rw [if_neg h]
    have ih := write_fst io buffer (start + WEBSOCKET_PAYLOAD_LEN) (k + 1)
    rw [ih]
    congr 1
    simp only [WEBSOCKET_PAYLOAD_LEN] at *
    omega
termination_by buffer.length + WEBSOCKET_PAYLOAD_LEN - start
decreasing_by
  simp only [WEBSOCKET_PAYLOAD_LEN] at *
  omega

/-- Number of frames emitted by the chunked-write loop. -/
theorem write_frames_length (io : Nat → Option Nat) (buffer : List Nat)
    (start k : Nat) :
    (write io buffer start k).2.length =
      (buffer.length - start) / WEBSOCKET_PAYLOAD_LEN + 1 := by
  rw [write_eq]
  by_cases h : buffer.length < start + WEBSOCKET_PAYLOAD_LEN
  · rw [if_pos h]
    have h0 : (buffer.length - start) / WEBSOCKET_PAYLOAD_LEN = 0 := by
      apply Nat.div_eq_of_lt
      simp only [WEBSOCKET_PAYLOAD_LEN] at *
      omega
    simp [h0]
  · rw [if_neg h]
    have ih := write_frames_length io buffer (start + WEBSOCKET_PAYLOAD_LEN) (k + 1)
    simp only [List.length_cons, ih]
    simp only [WEBSOCKET_PAYLOAD_LEN] at *
    omega
termination_by buffer.length + WEBSOCKET_PAYLOAD_LEN - start
decreasing_by
  simp only [WEBSOCKET_PAYLOAD_LEN] at *
  omega

/-- The frame slices concatenate, in order, to the suffix of the payload
from the cursor on: no byte is lost, duplicated or reordered. -/
theorem write_frames_join (io : Nat → Option Nat) (buffer : List Nat)
    (start k : Nat) :
    ((write io buffer start k).2.map Prod.fst).flatten = buffer.drop start := by
  rw [write_eq]
  by_cases h : buffer.length < start + WEBSOCKET_PAYLOAD_LEN
  · rw [if_pos h]
    simp
  · rw [if_neg h]
    have ih := write_frames_join io buffer (start + WEBSOCKET_PAYLOAD_LEN) (k + 1)
    have hdd : (buffer.drop start).drop WEBSOCKET_PAYLOAD_LEN =
        buffer.drop (start + WEBSOCKET_PAYLOAD_LEN) := by
      rw [List.drop_drop, Nat.add_comm]
    simp only [List.map_cons, List.flatten_cons, ih]
    rw [← hdd]
    exact List.take_append_drop _ _
termination_by buffer.length + WEBSOCKET_PAYLOAD_LEN - start
decreasing_by
  simp only [WEBSOCKET_PAYLOAD_LEN] at *
  omega

/-- End-of-message flags: every frame but the last carries `false`
(continuation), only the last carries `true`. -/
theorem write_frames_eoms (io : Nat → Option Nat) (buffer : List Nat)
    (start k : Nat) :
    (write io buffer start k).2.map Prod.snd =
      List.replicate ((buffer.length - start) / WEBSOCKET_PAYLOAD_LEN) false
        ++ [true] := by
  rw [write_eq]
  by_cases h : buffer.length < start + WEBSOCKET_PAYLOAD_LEN
  · rw [if_pos h]
    have h0 : (buffer.length - start) / WEBSOCKET_PAYLOAD_LEN = 0 := by
      apply Nat.div_eq_of_lt
      simp only [WEBSOCKET_PAYLOAD_LEN] at *
      omega
    simp [h0]
  · rw [if_neg h]
    have ih := write_frames_eoms io buffer (start + WEBSOCKET_PAYLOAD_LEN) (k + 1)
    have harith : (buffer.length - start) / WEBSOCKET_PAYLOAD_LEN =
        (buffer.length - (start + WEBSOCKET_PAYLOAD_LEN)) / WEBSOCKET_PAYLOAD_LEN
          + 1 := by
      simp only [WEBSOCKET_PAYLOAD_LEN] at *
      omega
    simp only [List.map_cons, ih, harith, List.replicate_succ, List.cons_append]
termination_by buffer.length + WEBSOCKET_PAYLOAD_LEN - start
decreasing_by
  simp only [WEBSOCKET_PAYLOAD_LEN] at *
  omega

/-- Every frame slice is at most `WEBSOCKET_PAYLOAD_LEN` bytes long. -/
theorem write_frames_le (io : Nat → Option Nat) (buffer : List Nat)
    (start k : Nat) :
    ∀ f ∈ (write io buffer start k).2, f.1.length ≤ WEBSOCKET_PAYLOAD_LEN := by
  rw [write_eq]
  by_cases h : buffer.length < start + WEBSOCKET_PAYLOAD_LEN
  · rw [if_pos h]
    intro f hf
    simp only [List.mem_singleton] at hf
    subst hf
    simp only [List.length_drop]
    simp only [WEBSOCKET_PAYLOAD_LEN] at *
    omega
  · rw [if_neg h]
    intro f hf
    simp only [List.mem_cons] at hf
    rcases hf with hf | hf
    · subst hf
      simp only [List.length_take]
      exact min_le_left _ _
    · exact write_frames_le io buffer (start + WEBSOCKET_PAYLOAD_LEN) (k + 1) f hf
termination_by buffer.length + WEBSOCKET_PAYLOAD_LEN - start
decreasing_by
  simp only [WEBSOCKET_PAYLOAD_LEN] at *
  omega

/-- Opcodes of the websocket server, `enum Opcode` in `client.rs`; the
discriminants start at `Close = 1` and increment. -/
inductive Opcode
  | Close
  | Send
  | State
  | Tick
  | Quit
deriving DecidableEq

/-- Numeric discriminant of an opcode (the derived `ToPrimitive`). -/
def Opcode.toUsize : Opcode → Nat
  | .Close => 1
  | .Send => 2
  | .State => 3
  | .Tick => 4
  | .Quit => 5

/-- Error kinds of the websocket server, `enum WsError` in `client.rs`;
discriminants start at 0. -/
inductive WsError
  | Scalar
  | ScalarBlock
  | Memory
  | MemoryBlock
  | AssetsFault
  | ProtocolError
deriving DecidableEq

/-- Numeric discriminant of a `WsError` (the derived `ToPrimitive`),
the value passed to `xous::return_scalar`. -/
def WsError.toUsize : WsError → Nat
  | .Scalar => 0
  | .ScalarBlock => 1
  | .Memory => 2
  | .MemoryBlock => 3
  | .AssetsFault => 4
  | .ProtocolError => 5

/-- States of the embedded-websocket client as reported by
`framer.state()` (the `WebSocketState` enum of the `embedded_websocket`
crate that `client.rs` matches on). -/
inductive WebSocketState
  | None
  | Connecting
  | Open
  | CloseSent
  | CloseReceived
  | Closed
  | Aborted
deriving DecidableEq

/-- Call kinds of a xous message, as far as `validate_msg` distinguishes
them: scalar, blocking scalar, memory, blocking memory. -/
inductive CallKind
  | scalar
  | blockingScalar
  | memory
  | blockingMemory
deriving DecidableEq

/-- Per-session assets stored in the dispatcher's `store`
(`Assets<ThreadRng>` from the repository's `poll` module, reconstructed
from its uses in `client.rs`): only the fields the handlers inspect are
modelled — the socket state read back through `framer.state()`, the
presence of the tls stream (`wss_stream`) and of the plain stream
(`ws_stream`), and the relay connection id `cid` used by `Quit`.  The
fixed read/write buffers and the read cursor are passed through to the
external framer and never influence the handlers' control flow, so they
carry no information here. -/
structure Assets where
  socketState : WebSocketState
  wssStream : Bool
  wsStream : Bool
  cid : Nat
deriving DecidableEq

/-- The dispatcher's session registry: `HashMap<NonZeroU8, Assets>` keyed
by the requesting process id, modelled as an association list with
distinct keys. -/
abbrev Store := List (Nat × Assets)

/-- Lookup of a pid in the registry (`store.get_mut(&pid)`). -/
def getAssets : Store → Nat → Option Assets
  | [], _ => none
  | (p, a) :: rest, pid => if p = pid then some a else getAssets rest pid

/-- Failure hints written back into the caller's memory buffer
(`buf.replace(drop(&hint))` in `client.rs`); the hint text is identified
by its source line rather than by its formatted string. -/
inductive Hint
  | doa (st : WebSocketState)
  | sendFailed (e : Nat)
deriving DecidableEq

/-- Externally visible actions of one dispatcher-loop iteration:
a scalar reply to the sender (`xous::return_scalar`), a hint written into
the sender's buffer (`buf.replace`), a message sent to some connection
(`xous::send_message`, used by `Quit`), or a keep-alive `framer.write`
on a session's stream with its outcome (used by `Tick`; `none` is `Ok`). -/
inductive Event
  | scalarReply (dest : Nat) (v : Nat)
  | hintReply (dest : Nat) (h : Hint)
  | sentMsg (cid : Nat) (op : Nat)
  | keepAlive (pid : Nat) (res : Option Nat)
deriving DecidableEq

/-- Body of an incoming message: the opcode together with the data the
handler consumes.  Outcomes of the external I/O the handler performs are
carried as oracle values: `close` carries the outcome of `framer.close`,
`send` carries the caller's payload and the per-chunk outcomes of the
`framer.write` calls made by `fn write`, `tick` carries the outcome of
the single keep-alive `framer.write`.  `unknown` is a message whose id
converts to no opcode. -/
inductive MsgBody
  | close (closeRes : Option Nat)
  | send (payload : List Nat) (io : Nat → Option Nat)
  | state
  | tick (writeRes : Option Nat)
  | quit
  | unknown

/-- An incoming xous message: sender pid, call kind, and body. -/
structure Msg where
  sender : Nat
  kind : CallKind
  body : MsgBody

/-- Modelled from the spec: `validate_msg` is defined in the repository's
`poll` module, which is not among the provided source files.  Per the
spec, each call is validated against its expected call kind before any
session logic executes and mismatches are rejected immediately, so it is
modelled as the check that the message's call kind is the one the opcode
expects (`WsError::Scalar`, `ScalarBlock`, `Memory` or `MemoryBlock`). -/
def validate_msg (expected : WsError) (k : CallKind) : Bool :=
  match expected, k with
  | WsError.Scalar, CallKind.scalar => true
  | WsError.ScalarBlock, CallKind.blockingScalar => true
  | WsError.Memory, CallKind.memory => true
  | WsError.MemoryBlock, CallKind.blockingMemory => true
  | _, _ => false

/-- Result of one iteration of the dispatcher loop: the registry after
the iteration, the events emitted, and whether the loop continues
(`false` exactly when the handler executed `break`). -/
structure StepOut where
  store : Store
  events : List Event
  cont : Bool
deriving DecidableEq

/-- Shallow embedding of one iteration of the dispatcher main loop in
`Client::main` of `client.rs`: receive one message and run the matching
opcode arm.  Every arm mirrors the source: `Close` looks the sender up,
replies `AssetsFault` if absent or if both streams are missing, runs
`framer.close` on the stream and replies `ProtocolError` on failure,
silently succeeds otherwise — the session is never removed from the
registry.  `Send` silently continues if the sender is absent or both
streams are missing, writes a DOA hint if the socket state is not Open,
runs the chunked `write` and writes a failure hint on error — the
registry is never modified.  `State` replies 1 when the session exists
and is Open, 0 when it is absent, and nothing at all when it exists but
is not Open.  `Tick` replies `AssetsFault` if the sender is absent or
streamless, otherwise performs one keep-alive `framer.write` on the
sender's stream, logging (not surfacing) any failure.  `Quit` sends one
`Close`-opcode scalar message to each registered session's `cid` and
breaks the loop.  An unconvertible opcode only logs. -/
def step (store : Store) (m : Msg) : StepOut :=
  match m.body with
  | MsgBody.close closeRes =>
    if validate_msg WsError.Scalar m.kind then
      match getAssets store m.sender with
      | none =>
        ⟨store, [Event.scalarReply m.sender (WsError.toUsize WsError.AssetsFault)], true⟩
      | some a =>
        if a.wssStream || a.wsStream then
          match closeRes with
          | none => ⟨store, [], true⟩
          | some _ =>
            ⟨store, [Event.scalarReply m.sender (WsError.toUsize WsError.ProtocolError)], true⟩
        else
          ⟨store, [Event.scalarReply m.sender (WsError.toUsize WsError.AssetsFault)], true⟩
    else ⟨store, [], true⟩
  | MsgBody.send payload io =>
    if validate_msg WsError.Memory m.kind then
      match getAssets store m.sender with
      | none => ⟨store, [], true⟩
      | some a =>
        if a.socketState = WebSocketState.Open then
          if a.wssStream || a.wsStream then
            match (write io payload 0 0).1 with
            | none => ⟨store, [], true⟩
            | some e => ⟨store, [Event.hintReply m.sender (Hint.sendFailed e)], true⟩
          else ⟨store, [], true⟩
        else ⟨store, [Event.hintReply m.sender (Hint.doa a.socketState)], true⟩
    else ⟨store, [], true⟩
  | MsgBody.state =>
    if validate_msg WsError.ScalarBlock m.kind then
      match getAssets store m.sender with
      | none => ⟨store, [Event.scalarReply m.sender 0], true⟩
      | some a =>
        if a.socketState = WebSocketState.Open then
          ⟨store, [Event.scalarReply m.sender 1], true⟩
        else ⟨store, [], true⟩
    else ⟨store, [], true⟩
  | MsgBody.tick writeRes =>
    if validate_msg WsError.Scalar m.kind then
      match getAssets store m.sender with
      | none =>
        ⟨store, [Event.scalarReply m.sender (WsError.toUsize WsError.AssetsFault)], true⟩
      | some a =>
        if a.wssStream || a.wsStream then
          ⟨store, [Event.keepAlive m.sender writeRes], true⟩
        else
          ⟨store, [Event.scalarReply m.sender (WsError.toUsize WsError.AssetsFault)], true⟩
    else ⟨store, [], true⟩
  | MsgBody.quit =>
    if validate_msg WsError.Scalar m.kind then
      ⟨store, store.map (fun pa => Event.sentMsg pa.2.cid (Opcode.toUsize Opcode.Close)),
        false⟩
    else ⟨store, [], true⟩
  | MsgBody.unknown => ⟨store, [], true⟩

/-- The dispatcher main loop over a list of incoming messages: each
message is handled by `step`; when a handler breaks (`Quit`), the
remaining messages are never received. -/
def runLoop (store : Store) : List Msg → List Event
  | [] => []
  | m :: rest =>
    let r := step store m
    if r.cont then r.events ++ runLoop r.store rest else r.events

/-- Actions of the keep-alive pump thread spawned by `spawn_tick_pump` in
`client.rs`: a sleep of the given number of milliseconds
(`tt.sleep_ms`), or a scalar message with the given opcode posted to the
given connection (`xous::send_message`). -/
inductive PumpAction
  | sleepMs (ms : Nat)
  | post (cid : Nat) (op : Nat)
deriving DecidableEq

/-- One iteration of the loop in `spawn_tick_pump`: sleep
`KEEPALIVE_TIMEOUT_SECONDS` converted to milliseconds, then post an
`Opcode::Tick` scalar message to the dispatcher connection `cid`. -/
def pumpIteration (cid : Nat) : List PumpAction :=
  [PumpAction.sleepMs (KEEPALIVE_TIMEOUT_SECONDS * 1000),
    PumpAction.post cid (Opcode.toUsize Opcode.Tick)]

/-- Trace of the first `n` iterations of the pump loop (the loop itself
never exits; `n` is how far the trace is observed). -/
def pumpTrace (cid : Nat) : Nat → List PumpAction
  | 0 => []
  | n + 1 => pumpIteration cid ++ pumpTrace cid n

/-- C1 (amended): for every payload of length `L ≥ 1`, the outbound
framing loop splits the payload into exactly `L / WEBSOCKET_PAYLOAD_LEN + 1`
chunks, each of length at most `WEBSOCKET_PAYLOAD_LEN`; every chunk but
the last is a continuation frame and only the last is marked
end-of-message; the chunks concatenate back to the payload in order.
When `L` is not a multiple of `WEBSOCKET_PAYLOAD_LEN` the chunk count
equals `ceil(L / WEBSOCKET_PAYLOAD_LEN)` as the original claim states;
but when `L` is a positive multiple of `WEBSOCKET_PAYLOAD_LEN` — in
particular a payload of exactly `WEBSOCKET_PAYLOAD_LEN` bytes — the loop
emits one extra trailing empty frame, which is the one marked
end-of-message. -/
theorem claim_C1 (io : Nat → Option Nat) (buffer : List Nat)
    (hL : 1 ≤ buffer.length) :
    (write io buffer 0 0).2.length = buffer.length / WEBSOCKET_PAYLOAD_LEN + 1
    ∧ (∀ f ∈ (write io buffer 0 0).2, f.1.length ≤ WEBSOCKET_PAYLOAD_LEN)
    ∧ (write io buffer 0 0).2.map Prod.snd =
        List.replicate (buffer.length / WEBSOCKET_PAYLOAD_LEN) false ++ [true]
    ∧ ((write io buffer 0 0).2.map Prod.fst).flatten = buffer
    ∧ (buffer.length % WEBSOCKET_PAYLOAD_LEN ≠ 0 →
        (write io buffer 0 0).2.length =
          (buffer.length + WEBSOCKET_PAYLOAD_LEN - 1) / WEBSOCKET_PAYLOAD_LEN) := by
  refine ⟨?_, ?_, ?_, ?_, ?_⟩
  · rw [write_frames_length, Nat.sub_zero]
  · exact write_frames_le io buffer 0 0
  · rw [write_frames_eoms, Nat.sub_zero]
  · rw [write_frames_join, List.drop_zero]
  · intro hmod
    rw [write_frames_length, Nat.sub_zero]
    simp only [WEBSOCKET_PAYLOAD_LEN] at *
    omega

/-- Witness for C1 at the concrete payload `[0, 1, 2]` with all writes
succeeding: one chunk, end-of-message, equal to the ceiling count. -/
theorem claim_C1_witness :
    (write (fun _ => none) [0, 1, 2] 0 0).2.length =
      (3 + WEBSOCKET_PAYLOAD_LEN - 1) / WEBSOCKET_PAYLOAD_LEN :=
  (claim_C1 (fun _ => none) [0, 1, 2] (by decide)).2.2.2.2 (by decide)

/-- Counterexample for C1 as stated: a payload of exactly
`WEBSOCKET_PAYLOAD_LEN` bytes is split into 2 frames, while
`ceil(WEBSOCKET_PAYLOAD_LEN / WEBSOCKET_PAYLOAD_LEN) = 1`. -/
theorem claim_C1_cex :
    (write (fun _ => none) (List.replicate WEBSOCKET_PAYLOAD_LEN 0) 0 0).2.length = 2
    ∧ (WEBSOCKET_PAYLOAD_LEN + WEBSOCKET_PAYLOAD_LEN - 1) / WEBSOCKET_PAYLOAD_LEN
        = 1 := by
  constructor
  · rw [write_frames_length, List.length_replicate]
    norm_num [WEBSOCKET_PAYLOAD_LEN]
  · norm_num [WEBSOCKET_PAYLOAD_LEN]

/-- C2 (amended): the chunked-write loop attempts every chunk regardless
of earlier failures and returns the outcome of the final chunk's
`framer.write` call (the last chunk has index
`buffer.length / WEBSOCKET_PAYLOAD_LEN`); an I/O error on any earlier
chunk is overwritten, so it is the last result — not the first error —
that the caller sees. -/
theorem claim_C2 (io : Nat → Option Nat) (buffer : List Nat) :
    (write io buffer 0 0).1 = io (buffer.length / WEBSOCKET_PAYLOAD_LEN) := by
  rw [write_fst]
  simp

/-- Counterexample for C2 as stated: in a two-chunk send whose first
chunk fails with error 7 and whose second chunk succeeds, the loop
returns `Ok` instead of the first error. -/
theorem claim_C2_cex :
    (write (fun j => if j = 0 then some 7 else none)
        (List.replicate 4081 0) 0 0).1 = none
    ∧ (fun j => if j = 0 then (some 7 : Option Nat) else none) 0 = some 7 := by
  constructor
  · rw [write_fst, List.length_replicate]
    norm_num [WEBSOCKET_PAYLOAD_LEN]
  · rfl

/-- C10: the chunked-write loop is total (the embedding is a terminating
function) and memory safe: at the start of the `i`-th iteration the
cursor `i * WEBSOCKET_PAYLOAD_LEN` is at most `buffer.len()`, so both
`buffer[start..]` and `buffer[start..start + WEBSOCKET_PAYLOAD_LEN]` are
in bounds; and the empty payload yields exactly one frame, empty and
marked end-of-message. -/
theorem claim_C10 :
    (∀ (io : Nat → Option Nat) (buffer : List Nat) (i : Nat),
        i < ((write io buffer 0 0).2).length →
          i * WEBSOCKET_PAYLOAD_LEN ≤ buffer.length)
    ∧ ∀ (io : Nat → Option Nat), (write io ([] : List Nat) 0 0).2 = [([], true)] := by
  constructor
  · intro io buffer i hi
    rw [write_frames_length, Nat.sub_zero] at hi
    have hi2 : i ≤ buffer.length / WEBSOCKET_PAYLOAD_LEN := Nat.lt_succ_iff.mp hi
    calc i * WEBSOCKET_PAYLOAD_LEN
        ≤ (buffer.length / WEBSOCKET_PAYLOAD_LEN) * WEBSOCKET_PAYLOAD_LEN :=
          Nat.mul_le_mul_right _ hi2
      _ ≤ buffer.length := Nat.div_mul_le_self _ _
  · intro io
    rw [write_eq]
    simp [WEBSOCKET_PAYLOAD_LEN]

/-- Witness for C10 at concrete inputs: the cursor of iteration 0 is in
bounds for the payload `[7]`, and the empty payload yields the single
empty end-of-message frame. -/
theorem claim_C10_witness :
    0 * WEBSOCKET_PAYLOAD_LEN ≤ ([7] : List Nat).length
    ∧ (write (fun _ => none) ([] : List Nat) 0 0).2 = [([], true)] :=
  ⟨claim_C10.1 (fun _ => none) [7] 0
      (by rw [write_frames_length]; exact Nat.succ_pos _),
    claim_C10.2 (fun _ => none)⟩

/-- Shape of a `Close` handling when the sender's session is present with
at least one stream: the registry is left unchanged and the reply is
never `AssetsFault` (it is silence on success, `ProtocolError` on a
failed close handshake). -/
theorem step_close_present (store : Store) (pid : Nat) (a : Assets)
    (r : Option Nat) (h : getAssets store pid = some a)
    (hs : (a.wssStream || a.wsStream) = true) :
    (step store ⟨pid, CallKind.scalar, MsgBody.close r⟩).store = store
    ∧ Event.scalarReply pid (WsError.toUsize WsError.AssetsFault)
        ∉ (step store ⟨pid, CallKind.scalar, MsgBody.close r⟩).events := by
  cases r with
  | none =>
    constructor
    · simp [step, validate_msg, h, hs]
    · simp [step, validate_msg, h, hs]
  | some e =>
    constructor
    · simp [step, validate_msg, h, hs]
    · simp [step, validate_msg, h, hs, WsError.toUsize]

/-- C3 (amended): the `Close` handler never removes the session from the
registry, so after a Close on an existing session (with a stream) the
session is still registered, and a second Close from the same process is
handled exactly like the first — silent success or `ProtocolError`,
depending on the close-handshake outcome — and never returns
`AssetsFault`.  `AssetsFault` is produced only when no session is
present at all. -/
theorem claim_C3 (store : Store) (pid : Nat) (a : Assets) (r1 r2 : Option Nat)
    (h : getAssets store pid = some a)
    (hs : (a.wssStream || a.wsStream) = true) :
    (step store ⟨pid, CallKind.scalar, MsgBody.close r1⟩).store = store
    ∧ Event.scalarReply pid (WsError.toUsize WsError.AssetsFault)
        ∉ (step store ⟨pid, CallKind.scalar, MsgBody.close r1⟩).events
    ∧ Event.scalarReply pid (WsError.toUsize WsError.AssetsFault)
        ∉ (step (step store ⟨pid, CallKind.scalar, MsgBody.close r1⟩).store
            ⟨pid, CallKind.scalar, MsgBody.close r2⟩).events := by
  refine ⟨(step_close_present store pid a r1 h hs).1,
    (step_close_present store pid a r1 h hs).2, ?_⟩
  rw [(step_close_present store pid a r1 h hs).1]
  exact (step_close_present store pid a r2 h hs).2

/-- Witness for C3 at a concrete registry with one open plain-stream
session for pid 1 and both close handshakes succeeding. -/
theorem claim_C3_witness :
    (step [(1, Assets.mk WebSocketState.Open false true 7)]
        ⟨1, CallKind.scalar, MsgBody.close none⟩).store
      = [(1, Assets.mk WebSocketState.Open false true 7)]
    ∧ Event.scalarReply 1 (WsError.toUsize WsError.AssetsFault)
        ∉ (step [(1, Assets.mk WebSocketState.Open false true 7)]
            ⟨1, CallKind.scalar, MsgBody.close none⟩).events
    ∧ Event.scalarReply 1 (WsError.toUsize WsError.AssetsFault)
        ∉ (step (step [(1, Assets.mk WebSocketState.Open false true 7)]
              ⟨1, CallKind.scalar, MsgBody.close none⟩).store
            ⟨1, CallKind.scalar, MsgBody.close none⟩).events :=
  claim_C3 [(1, Assets.mk WebSocketState.Open false true 7)] 1
    (Assets.mk WebSocketState.Open false true 7) none none rfl rfl

/-- Counterexample for C3 as stated: with one registered session for
pid 1, a first Close leaves the registry unchanged, and the second Close
produces no events at all — in particular not the `AssetsFault` reply
the claim requires. -/
theorem claim_C3_cex :
    (step [(1, Assets.mk WebSocketState.Open false true 7)]
        ⟨1, CallKind.scalar, MsgBody.close none⟩).store
      = [(1, Assets.mk WebSocketState.Open false true 7)]
    ∧ (step (step [(1, Assets.mk WebSocketState.Open false true 7)]
          ⟨1, CallKind.scalar, MsgBody.close none⟩).store
        ⟨1, CallKind.scalar, MsgBody.close none⟩).events = []
    ∧ ([] : List Event)
        ≠ [Event.scalarReply 1 (WsError.toUsize WsError.AssetsFault)] := by
  refine ⟨?_, ?_, ?_⟩ <;> decide

/-- C4: evaluation of the `State` handler at the failing input.  When a
session for the caller exists but its socket state is not Open (here:
`Closed`), the handler hits the `if` with no `else` and produces no
reply at all, leaving the blocking caller without an answer — the claim
(and the opcode's own doc comment, 1=Open, 0=notOpen) requires a scalar
0.  The two context conjuncts show the neighbouring paths do reply:
an absent session gets 0 and an Open session gets 1. -/
theorem claim_C4 :
    (step [(1, Assets.mk WebSocketState.Closed false true 7)]
        ⟨1, CallKind.blockingScalar, MsgBody.state⟩).events = []
    ∧ (step [] ⟨1, CallKind.blockingScalar, MsgBody.state⟩).events
        = [Event.scalarReply 1 0]
    ∧ (step [(1, Assets.mk WebSocketState.Open false true 7)]
        ⟨1, CallKind.blockingScalar, MsgBody.state⟩).events
        = [Event.scalarReply 1 1] := by
  refine ⟨?_, ?_, ?_⟩ <;> decide

/-- C5 (amended): of the three session-targeting operations invoked with
no session registered for the caller, `Close` and `Tick` reply with an
`AssetsFault` scalar, but `Send` only logs and drops the request: no
reply is produced and no hint is written, so the caller is answered by
nothing rather than by an `AssetsFault` result.  None of the three
mutates the registry or stops the loop. -/
theorem claim_C5 (store : Store) (pid : Nat) (h : getAssets store pid = none)
    (cr wr : Option Nat) (payload : List Nat) (io : Nat → Option Nat) :
    step store ⟨pid, CallKind.scalar, MsgBody.close cr⟩
      = ⟨store, [Event.scalarReply pid (WsError.toUsize WsError.AssetsFault)], true⟩
    ∧ step store ⟨pid, CallKind.scalar, MsgBody.tick wr⟩
      = ⟨store, [Event.scalarReply pid (WsError.toUsize WsError.AssetsFault)], true⟩
    ∧ step store ⟨pid, CallKind.memory, MsgBody.send payload io⟩
      = ⟨store, [], true⟩ := by
  refine ⟨?_, ?_, ?_⟩ <;> simp [step, validate_msg, h]

/-- Witness for C5 at the empty registry and pid 1. -/
theorem claim_C5_witness :
    step [] ⟨1, CallKind.scalar, MsgBody.close none⟩
      = ⟨[], [Event.scalarReply 1 (WsError.toUsize WsError.AssetsFault)], true⟩
    ∧ step [] ⟨1, CallKind.scalar, MsgBody.tick none⟩
      = ⟨[], [Event.scalarReply 1 (WsError.toUsize WsError.AssetsFault)], true⟩
    ∧ step [] ⟨1, CallKind.memory, MsgBody.send [0] (fun _ => none)⟩
      = ⟨[], [], true⟩ :=
  claim_C5 [] 1 rfl none none [0] (fun _ => none)

/-- Counterexample for C5 as stated: a `Send` from pid 1 with no
registered session produces no events — the request is silently dropped
instead of returning an `AssetsFault` result. -/
theorem claim_C5_cex :
    (step [] ⟨1, CallKind.memory, MsgBody.send [0] (fun _ => none)⟩).events = []
    ∧ ([] : List Event)
        ≠ [Event.scalarReply 1 (WsError.toUsize WsError.AssetsFault)] := by
  constructor <;> decide

/-- C6 (amended): the `Tick` handler sends a single keep-alive text frame
to the session of the message's sender only — not to every Open session
in the registry — and does so whatever that session's socket state is;
the write outcome (success or failure) is logged, never surfaced as a
reply, and the registry (hence every session's state) is unchanged. -/
theorem claim_C6 (store : Store) (pid : Nat) (a : Assets) (wr : Option Nat)
    (h : getAssets store pid = some a)
    (hs : (a.wssStream || a.wsStream) = true) :
    step store ⟨pid, CallKind.scalar, MsgBody.tick wr⟩
      = ⟨store, [Event.keepAlive pid wr], true⟩ := by
  simp [step, validate_msg, h, hs]

/-- Witness for C6: a concrete registry with an open session for pid 1
and a failing keep-alive write (error 3): one keep-alive event to pid 1,
no reply, registry unchanged. -/
theorem claim_C6_witness :
    step [(1, Assets.mk WebSocketState.Open false true 7)]
        ⟨1, CallKind.scalar, MsgBody.tick (some 3)⟩
      = ⟨[(1, Assets.mk WebSocketState.Open false true 7)],
          [Event.keepAlive 1 (some 3)], true⟩ :=
  claim_C6 [(1, Assets.mk WebSocketState.Open false true 7)] 1
    (Assets.mk WebSocketState.Open false true 7) (some 3) rfl rfl

/-- Counterexample for C6 as stated: with two Open sessions registered
(pids 1 and 2), a Tick sent by pid 1 writes a keep-alive only to pid 1's
session; pid 2's Open session receives nothing. -/
theorem claim_C6_cex :
    (step [(1, Assets.mk WebSocketState.Open false true 7),
           (2, Assets.mk WebSocketState.Open false true 8)]
        ⟨1, CallKind.scalar, MsgBody.tick none⟩).events
      = [Event.keepAlive 1 none]
    ∧ Event.keepAlive 2 none ∉
        (step [(1, Assets.mk WebSocketState.Open false true 7),
               (2, Assets.mk WebSocketState.Open false true 8)]
          ⟨1, CallKind.scalar, MsgBody.tick none⟩).events := by
  constructor <;> decide

/-- Shape of a `Send` handling whose chunked write fails: the failure
hint is written into the caller's buffer and the registry is returned
unchanged. -/
theorem step_send_err (store : Store) (pid : Nat) (a : Assets)
    (payload : List Nat) (io : Nat → Option Nat) (e : Nat)
    (h : getAssets store pid = some a)
    (ho : a.socketState = WebSocketState.Open)
    (hs : (a.wssStream || a.wsStream) = true)
    (hw : (write io payload 0 0).1 = some e) :
    step store ⟨pid, CallKind.memory, MsgBody.send payload io⟩
      = ⟨store, [Event.hintReply pid (Hint.sendFailed e)], true⟩ := by
  simp [step, validate_msg, h, ho, hs, hw]

/-- C7 (amended): when the chunked write of a `Send` fails with an I/O
error, a descriptive failure hint is written back into the caller's
buffer and the session remains in the registry — but entirely unchanged:
the handler performs no state mutation at all, so the session is not
marked Faulted (a subsequent `State` still reports it Open); it is also
not removed, so a Close or Quit is still what frees it. -/
theorem claim_C7 (store : Store) (pid : Nat) (a : Assets)
    (payload : List Nat) (io : Nat → Option Nat) (e : Nat)
    (h : getAssets store pid = some a)
    (ho : a.socketState = WebSocketState.Open)
    (hs : (a.wssStream || a.wsStream) = true)
    (hw : (write io payload 0 0).1 = some e) :
    step store ⟨pid, CallKind.memory, MsgBody.send payload io⟩
      = ⟨store, [Event.hintReply pid (Hint.sendFailed e)], true⟩ :=
  step_send_err store pid a payload io e h ho hs hw

/-- Witness for C7: a concrete one-session registry and a write failing
with error 5 on its only chunk. -/
theorem claim_C7_witness :
    step [(1, Assets.mk WebSocketState.Open false true 7)]
        ⟨1, CallKind.memory, MsgBody.send [0] (fun _ => some 5)⟩
      = ⟨[(1, Assets.mk WebSocketState.Open false true 7)],
          [Event.hintReply 1 (Hint.sendFailed 5)], true⟩ :=
  claim_C7 [(1, Assets.mk WebSocketState.Open false true 7)] 1
    (Assets.mk WebSocketState.Open false true 7) [0] (fun _ => some 5) 5
    rfl rfl rfl (by rw [write_fst])

/-- Counterexample for C7 as stated: after the failing Send, the registry
is exactly the one before, and pid 1's session still has socket state
Open — it was not marked Faulted. -/
theorem claim_C7_cex :
    (step [(1, Assets.mk WebSocketState.Open false true 7)]
        ⟨1, CallKind.memory, MsgBody.send [0] (fun _ => some 5)⟩).store
      = [(1, Assets.mk WebSocketState.Open false true 7)]
    ∧ getAssets [(1, Assets.mk WebSocketState.Open false true 7)] 1
        = some (Assets.mk WebSocketState.Open false true 7)
    ∧ (Assets.mk WebSocketState.Open false true 7).socketState
        = WebSocketState.Open := by
  refine ⟨?_, rfl, rfl⟩
  have he := step_send_err [(1, Assets.mk WebSocketState.Open false true 7)] 1
    (Assets.mk WebSocketState.Open false true 7) [0] (fun _ => some 5) 5
    rfl rfl rfl (by rw [write_fst])
  rw [he]

/-- C8 (amended): on `Quit`, one `Close`-opcode scalar message is sent
for every session registered at that moment — to each session's stored
relay connection id — and the main loop stops (no later message is
received), after which the server is unregistered, destroyed and the
process terminated.  Messages arriving after the Quit, such as a State
query from a previously connected process, are therefore never
processed: the caller receives no reply at all, rather than 0. -/
theorem claim_C8 (store : Store) (pid : Nat) (rest : List Msg) :
    step store ⟨pid, CallKind.scalar, MsgBody.quit⟩
      = ⟨store,
          store.map (fun pa => Event.sentMsg pa.2.cid (Opcode.toUsize Opcode.Close)),
          false⟩
    ∧ runLoop store (⟨pid, CallKind.scalar, MsgBody.quit⟩ :: rest)
      = store.map (fun pa => Event.sentMsg pa.2.cid (Opcode.toUsize Opcode.Close)) :=
  ⟨rfl, rfl⟩

/-- Counterexample for C8 as stated: with two open sessions (pids 1 and
2, relay cids 7 and 8), a Quit followed by a State query from pid 1
yields only the two Close messages; the State query is never answered,
so pid 1 does not receive the scalar 0 the claim requires. -/
theorem claim_C8_cex :
    runLoop [(1, Assets.mk WebSocketState.Open false true 7),
             (2, Assets.mk WebSocketState.Open false true 8)]
        [⟨9, CallKind.scalar, MsgBody.quit⟩,
          ⟨1, CallKind.blockingScalar, MsgBody.state⟩]
      = [Event.sentMsg 7 1, Event.sentMsg 8 1]
    ∧ Event.scalarReply 1 0 ∉
        ([Event.sentMsg 7 1, Event.sentMsg 8 1] : List Event) := by
  constructor <;> decide

/-- C9: every iteration of the keep-alive pump loop sleeps exactly
`KEEPALIVE_TIMEOUT_SECONDS` (55 seconds, as 55000 milliseconds) and then
posts one `Opcode::Tick` scalar message to the dispatcher connection;
the observed trace of any number of iterations is that pattern
repeated. -/
theorem claim_C9 (cid : Nat) (n : Nat) :
    pumpTrace cid n =
      (List.replicate n [PumpAction.sleepMs (55 * 1000),
          PumpAction.post cid (Opcode.toUsize Opcode.Tick)]).flatten := by
  induction n with
  | zero => rfl
  | succ k ih =>
    simp only [pumpTrace, List.replicate_succ, List.flatten_cons, ih]
    rfl

end Ws
